import Mathlib

/-!
Verification of the derived-financial-computation core of the
financial-tracker repository: the amortization engine, recurring-rule
scheduler, budget evaluator, analytics aggregator, financial-health
calculator and cash-flow forecast engine, as given in the repository's
domain-logic sources
(`features/longTermDebts/domain/amortization.ts`,
`features/recurringDebts/domain/recurringDebtScheduler.ts`,
`features/budgets/domain/budgetEvaluator.ts`,
`features/analytics/domain/analyticsAggregator.ts`,
`features/dashboard/domain/healthCalculator.ts`,
`features/forecast/domain/forecastEngine.ts`).

Conventions of the embedding:
* All monetary values are integer cents (`Int`), as in the source.
* JavaScript floating-point ratios are modelled over `ℚ`; `Math.round`
  is `jsRound q = ⌊q + 1/2⌋` (round half up, JS semantics).
* Calendar dates carry no time-of-day component: every date the core
  manipulates is a plain civil date.  The `date-fns` helpers used by the
  source (`addDays`, `addWeeks`, `addMonths`, `addQuarters`, `addYears`,
  `startOf…`/`endOf…`, `isSameDay/Week/Month`, `each…OfInterval`,
  `getISOWeek`) are embedded below over a proleptic Gregorian calendar;
  `addMonths` clamps to the last valid day of a shorter target month,
  exactly as `date-fns` does.
* A thrown `Error` is an `Except.error` / `none`; the JS value
  `Infinity` produced by the guarded ratio divisions is the `none` case
  of an `Option ℚ` (the "undefined ratio" sentinel).
* Presentation-only string fields of the view models (ratio
  `description` / `improvementTip` texts) and the impure `generatedAt`
  timestamp are not part of the embedding; no computation reads them.
-/

namespace FinTrack

/- The Batteries rational-number operations are `@[irreducible]`, which
blocks `decide`/`rfl` evaluation of the embedded engines on concrete
inputs; restore the default reducibility for this development. -/
attribute [local semireducible] Rat.mul Rat.add Rat.sub Rat.inv Rat.ofScientific

/-! ## Calendar dates (date-fns semantics) -/

/-- A civil (proleptic Gregorian) calendar date.  `month` is 1-based. -/
structure Date where
  year : Int
  month : Int
  day : Int
deriving DecidableEq, Repr

/-- Gregorian leap-year rule. -/
def isLeapYear (y : Int) : Bool :=
  y % 4 == 0 && (y % 100 != 0 || y % 400 == 0)

/-- Number of days in a month of a given year. -/
def daysInMonth (y m : Int) : Int :=
  if m == 2 then (if isLeapYear y then 29 else 28)
  else if m == 4 || m == 6 || m == 9 || m == 11 then 30
  else 31

/-- A structurally valid calendar date. -/
def Date.valid (d : Date) : Prop :=
  1 ≤ d.month ∧ d.month ≤ 12 ∧ 1 ≤ d.day ∧ d.day ≤ daysInMonth d.year d.month

instance (d : Date) : Decidable d.valid := by
  unfold Date.valid; infer_instance

/-- Days since the Unix epoch 1970-01-01 (negative before it); the civil
    "days from date" algorithm, written with floor division. -/
def toDayNumber (d : Date) : Int :=
  let y := if d.month ≤ 2 then d.year - 1 else d.year
  let mp := if d.month ≤ 2 then d.month + 9 else d.month - 3
  let doy := (153 * mp + 2) / 5 + d.day - 1
  365 * y + y / 4 - y / 100 + y / 400 + doy - 719468

/-- Inverse of `toDayNumber`: the civil "date from days" algorithm. -/
def ofDayNumber (n : Int) : Date :=
  let z := n + 719468
  let era := z / 146097
  let doe := z - era * 146097
  let yoe := (doe - doe / 1460 + doe / 36524 - doe / 146096) / 365
  let y := yoe + era * 400
  let doy := doe - (365 * yoe + yoe / 4 - yoe / 100)
  let mp := (5 * doy + 2) / 153
  let d := doy - (153 * mp + 2) / 5 + 1
  let m := if mp < 10 then mp + 3 else mp - 9
  ⟨if m ≤ 2 then y + 1 else y, m, d⟩

/-- Timestamp order on dates (JS `Date` comparison at midnight). -/
def dateLe (a b : Date) : Bool := toDayNumber a ≤ toDayNumber b

/-- Strict timestamp order on dates. -/
def dateLt (a b : Date) : Bool := toDayNumber a < toDayNumber b

/-- date-fns `addDays`. -/
def addDays (d : Date) (n : Int) : Date := ofDayNumber (toDayNumber d + n)

/-- date-fns `addWeeks`. -/
def addWeeks (d : Date) (n : Int) : Date := addDays d (7 * n)

/-- date-fns `addMonths`: advances the month index and clamps the day to
    the last valid day of a shorter target month. -/
def addMonths (d : Date) (n : Int) : Date :=
  let months := d.year * 12 + (d.month - 1) + n
  let y := months / 12
  let m := months - 12 * y + 1
  ⟨y, m, min d.day (daysInMonth y m)⟩

/-- date-fns `addQuarters` (three months). -/
def addQuarters (d : Date) (n : Int) : Date := addMonths d (3 * n)

/-- date-fns `addYears` (twelve months, with the same Feb-29 clamp). -/
def addYears (d : Date) (n : Int) : Date := addMonths d (12 * n)

/-- date-fns `subMonths`. -/
def subMonths (d : Date) (n : Int) : Date := addMonths d (-n)

/-- JS `Date.getDay`: 0 = Sunday … 6 = Saturday (1970-01-01 was a Thursday). -/
def dayOfWeek (d : Date) : Int := (toDayNumber d + 4) % 7

/-- date-fns `startOfWeek` with the given `weekStartsOn` (0 = Sunday, 1 = Monday). -/
def startOfWeek (weekStartsOn : Int) (d : Date) : Date :=
  addDays d (-((dayOfWeek d - weekStartsOn) % 7))

/-- date-fns `endOfWeek` with the given `weekStartsOn`. -/
def endOfWeek (weekStartsOn : Int) (d : Date) : Date :=
  addDays (startOfWeek weekStartsOn d) 6

/-- date-fns `startOfDay`: dates carry no time component, so it is the identity. -/
def startOfDay (d : Date) : Date := d

/-- date-fns `startOfMonth`. -/
def startOfMonth (d : Date) : Date := ⟨d.year, d.month, 1⟩

/-- date-fns `endOfMonth`. -/
def endOfMonth (d : Date) : Date := ⟨d.year, d.month, daysInMonth d.year d.month⟩

/-- date-fns `startOfQuarter`. -/
def startOfQuarter (d : Date) : Date :=
  ⟨d.year, 3 * ((d.month - 1) / 3) + 1, 1⟩

/-- date-fns `endOfQuarter`. -/
def endOfQuarter (d : Date) : Date :=
  let m := 3 * ((d.month - 1) / 3) + 3
  ⟨d.year, m, daysInMonth d.year m⟩

/-- date-fns `startOfYear`. -/
def startOfYear (d : Date) : Date := ⟨d.year, 1, 1⟩

/-- date-fns `endOfYear`. -/
def endOfYear (d : Date) : Date := ⟨d.year, 12, 31⟩

/-- date-fns `isSameDay`. -/
def isSameDay (a b : Date) : Bool := toDayNumber a == toDayNumber b

/-- date-fns `isSameWeek` with its default `weekStartsOn: 0`. -/
def isSameWeek (a b : Date) : Bool :=
  toDayNumber (startOfWeek 0 a) == toDayNumber (startOfWeek 0 b)

/-- date-fns `isSameMonth`. -/
def isSameMonth (a b : Date) : Bool := a.year == b.year && a.month == b.month

/-- date-fns `eachDayOfInterval`: every day from `s` to `e` inclusive. -/
def eachDayOfInterval (s e : Date) : List Date :=
  (List.range (toDayNumber e - toDayNumber s + 1).toNat).map
    (fun k => ofDayNumber (toDayNumber s + k))

/-- date-fns `eachWeekOfInterval` (default `weekStartsOn: 0`): the start of
    every week from `startOfWeek s` while it is on or before `e`. -/
def eachWeekOfInterval (s e : Date) : List Date :=
  let w0 := startOfWeek 0 s
  (List.range ((toDayNumber e - toDayNumber w0) / 7 + 1).toNat).map
    (fun k => addDays w0 (7 * k))

/-- date-fns `eachMonthOfInterval`: the first day of every month from the
    month of `s` through the month of `e`. -/
def eachMonthOfInterval (s e : Date) : List Date :=
  let ms := s.year * 12 + (s.month - 1)
  let me := e.year * 12 + (e.month - 1)
  (List.range (me - ms + 1).toNat).map
    (fun k => let t := ms + k; ⟨t / 12, t % 12 + 1, 1⟩)

/-- date-fns `getISOWeek`: ISO-8601 week number (week 1 holds the year's
    first Thursday; ISO weeks start on Monday). -/
def getISOWeek (d : Date) : Int :=
  let t := toDayNumber d
  let isoDow := (t + 3) % 7
  let th := t + (3 - isoDow)
  let thd := ofDayNumber th
  (th - toDayNumber ⟨thd.year, 1, 1⟩) / 7 + 1

/-- JS `String(n).padStart(2, '0')` for a (nonnegative) number. -/
def pad2 (n : Int) : String :=
  if n < 10 then "0" ++ toString n else toString n

/-! ## Shared numeric helpers -/

/-- JS `Math.round`: round half toward positive infinity. -/
def jsRound (q : ℚ) : Int := Int.floor (q + 1 / 2)

/-! ## Movements (core data model, `features/*/types.ts` shape) -/

/-- A dated income (`typeOfMovement = "1"`) or expense (`"2"`) record with
    an integer-cents amount, as consumed by the computational core.
    (The `createdAt`/`updatedAt` bookkeeping timestamps are never read by
    any engine and are not modelled.) -/
structure IMovement where
  id : String
  description : String
  amount : Int
  typeOfMovement : String
  category : String
  date : Date
  entity : Option String := none
deriving DecidableEq, Repr

/-! ## Recurring-rule scheduler (`recurringDebtScheduler.ts`) -/

inductive RecurrenceFrequency
  | weekly | biweekly | monthly | quarterly | annual
deriving DecidableEq, Repr

/-- `IRecurringDebt`: the template of a periodic obligation. -/
structure IRecurringDebt where
  id : String
  name : String
  amount : Int
  category : String
  entity : Option String := none
  frequency : RecurrenceFrequency
  startDate : Date
  nextDueDate : Date
  endDate : Option Date := none
  isActive : Bool
  autoPost : Bool
  estimatedAmount : Bool
deriving DecidableEq, Repr

/-- `advanceNextDueDate`: the next due date after a due date, for a
    frequency; the monthly/quarterly/annual cases are the date-fns
    month-arithmetic with end-of-month clamping. -/
def advanceNextDueDate (currentDueDate : Date) :
    RecurrenceFrequency → Date
  | .weekly => addWeeks currentDueDate 1
  | .biweekly => addWeeks currentDueDate 2
  | .monthly => addMonths currentDueDate 1
  | .quarterly => addQuarters currentDueDate 1
  | .annual => addYears currentDueDate 1

/-! ## Amortization engine (`features/longTermDebts/domain/amortization.ts`) -/

/-- The status of an amortization entry; `partPaid` stands for the
    source's fourth status literal (a partially paid entry). -/
inductive EntryStatus
  | pending | paid | overdue | partPaid
deriving DecidableEq, Repr

/-- `IAmortizationEntry`: one scheduled loan payment. -/
structure IAmortizationEntry where
  periodNumber : Int
  dueDate : Date
  paymentAmount : Int
  principalAmount : Int
  interestAmount : Int
  remainingPrincipal : Int
  linkedMovementId : Option String := none
  partialAmountPaid : Option Int := none
  status : EntryStatus
deriving DecidableEq, Repr

/-- `ILongTermDebt`: a loan with its precomputed amortization table.
    (The display-only `lender`/`category` strings, the unused
    `rateHistory` and the bookkeeping timestamps are not read by any
    embedded computation and are not modelled.) -/
structure ILongTermDebt where
  id : String
  name : String
  originalPrincipal : Int
  currentPrincipal : Int
  annualInterestRate : ℚ
  monthlyPayment : Int
  termMonths : Int
  startDate : Date
  entity : Option String := none
  amortizationTable : List IAmortizationEntry
  isActive : Bool
deriving DecidableEq, Repr

/-- The body of the `for (let i = 1; i <= termMonths; i++)` loop of
    `computeFrenchAmortizationTable`, one entry per period index of
    `idxs`, threading the running `remaining` balance.  The final period
    (`i = termMonths`) forces its principal portion to the exact
    remaining balance. -/
def frenchRows (monthlyPayment : Int) (monthlyRate : ℚ) (startDate : Date)
    (termMonths : Int) : List Int → Int → List IAmortizationEntry
  | [], _ => []
  | i :: rest, remaining =>
    let interestAmount := jsRound (remaining * monthlyRate)
    let principalAmount :=
      if i = termMonths then remaining else monthlyPayment - interestAmount
    let remaining' := remaining - principalAmount
    { periodNumber := i
      dueDate := addMonths startDate i
      paymentAmount :=
        if i = termMonths then principalAmount + interestAmount
        else monthlyPayment
      principalAmount := principalAmount
      interestAmount := interestAmount
      remainingPrincipal := max 0 remaining'
      status := .pending } ::
      frenchRows monthlyPayment monthlyRate startDate termMonths rest remaining'

/-- The running balance left after the loop of
    `computeFrenchAmortizationTable` has processed the period indices
    `idxs` starting from balance `remaining`. -/
def frenchRemaining (monthlyPayment : Int) (monthlyRate : ℚ) (termMonths : Int) :
    List Int → Int → Int
  | [], remaining => remaining
  | i :: rest, remaining =>
    let interestAmount := jsRound (remaining * monthlyRate)
    let principalAmount :=
      if i = termMonths then remaining else monthlyPayment - interestAmount
    frenchRemaining monthlyPayment monthlyRate termMonths rest
      (remaining - principalAmount)

/-- The 1-based period indices `1, …, termMonths` the loop runs over. -/
def frenchIdxs (termMonths : Int) : List Int :=
  List.map (fun k : ℕ => (k : Int) + 1) (List.range termMonths.toNat)

/-- The fixed monthly payment of the French method:
    `round(principal·r·(1+r)^n / ((1+r)^n − 1))` at the monthly rate `r`. -/
def frenchMonthlyPayment (principal : Int) (annualRate : ℚ)
    (termMonths : Int) : Int :=
  let monthlyRate := annualRate / 12
  jsRound ((principal * monthlyRate * (1 + monthlyRate) ^ termMonths.toNat) /
    ((1 + monthlyRate) ^ termMonths.toNat - 1))

/-- `computeFrenchAmortizationTable`: full French (equal-payment)
    amortization table; rejects non-positive principal, rate or term with
    the source's error messages. -/
def computeFrenchAmortizationTable (principal : Int) (annualRate : ℚ)
    (termMonths : Int) (startDate : Date) :
    Except String (List IAmortizationEntry) :=
  if principal ≤ 0 then .error "Principal must be greater than zero"
  else if annualRate ≤ 0 then .error "Interest rate must be greater than zero"
  else if termMonths ≤ 0 then .error "Term must be greater than zero"
  else
    .ok (frenchRows (frenchMonthlyPayment principal annualRate termMonths)
      (annualRate / 12) startDate termMonths (frenchIdxs termMonths) principal)

/-- `recomputeFromPeriod`: keeps the entries before `fromPeriod`,
    regenerates the rest from `newPrincipal` at the debt's rate, and
    renumbers the regenerated entries to stay contiguous.  `none` models
    the crash of the source's non-null assertion when no entry carries
    `fromPeriod`, and a thrown `InvalidLoanParameters`. -/
def recomputeFromPeriod (debt : ILongTermDebt) (fromPeriod : Int)
    (newPrincipal : Int) : Option (List IAmortizationEntry) :=
  let paidEntries :=
    debt.amortizationTable.filter (fun e => decide (e.periodNumber < fromPeriod))
  let remainingTermMonths := debt.termMonths - fromPeriod + 1
  match debt.amortizationTable.find? (fun e => e.periodNumber == fromPeriod) with
  | none => none
  | some e0 =>
    match computeFrenchAmortizationTable newPrincipal debt.annualInterestRate
        remainingTermMonths (addMonths e0.dueDate (-1)) with
    | .error _ => none
    | .ok t =>
      some (paidEntries ++
        t.map (fun e => { e with periodNumber := e.periodNumber + fromPeriod - 1 }))

/-- `computeTotalInterestCost`: total interest over the loan's life. -/
def computeTotalInterestCost (table : List IAmortizationEntry) : Int :=
  (table.map (fun e => e.interestAmount)).sum

/-! ## Financial-health calculator (`features/dashboard/domain/healthCalculator.ts`) -/

inductive RatioStatus
  | good | warning | critical
deriving DecidableEq, Repr

/-- `IFinancialRatio` (without its presentation-only description texts).
    A `none` value models the JS `Infinity` an unguarded ratio reports. -/
structure IFinancialRatio where
  id : String
  name : String
  value : Option ℚ
  benchmark : ℚ
  status : RatioStatus
deriving DecidableEq, Repr

/-- `IFinancialHealthSnapshot`.  `debtToIncomeRatio` and
    `emergencyFundMonths` are `none` exactly when the source reports the
    `Infinity` undefined-ratio sentinel. -/
structure IFinancialHealthSnapshot where
  computedAt : Date
  overallScore : Int
  netWorth : Int
  totalAssets : Int
  totalLiabilities : Int
  monthlyIncome : Int
  monthlyExpenses : Int
  monthlyDebtPayments : Int
  savingsRate : ℚ
  debtToIncomeRatio : Option ℚ
  emergencyFundMonths : Option ℚ
  ratios : List IFinancialRatio
deriving DecidableEq, Repr

/-- The four scored ratios of `computeRatios`, statuses per the source's
    fixed benchmarks (Infinity compares as larger than every rational). -/
def computeRatios (savingsRate : ℚ) (debtToIncomeRatio : Option ℚ)
    (emergencyFundMonths : Option ℚ) (netWorth : Int) : List IFinancialRatio :=
  [ { id := "savings_rate", name := "Savings Rate"
      value := some savingsRate, benchmark := 0.20
      status :=
        if savingsRate ≥ 0.20 then .good
        else if savingsRate ≥ 0.10 then .warning
        else .critical }
  , { id := "debt_to_income", name := "Debt-to-Income Ratio"
      value := debtToIncomeRatio, benchmark := 0.35
      status :=
        match debtToIncomeRatio with
        | none => .critical
        | some v =>
          if v ≤ 0.35 then .good else if v ≤ 0.50 then .warning else .critical }
  , { id := "emergency_fund", name := "Emergency Fund"
      value := emergencyFundMonths, benchmark := 6
      status :=
        match emergencyFundMonths with
        | none => .good
        | some v => if v ≥ 6 then .good else if v ≥ 3 then .warning else .critical }
  , { id := "net_worth", name := "Net Worth"
      value := some (netWorth : ℚ), benchmark := 0
      status := if netWorth ≥ 0 then .good else .critical } ]

/-- The `weights` record of `computeOverallScore` (`?? 0` for other ids). -/
def scoreWeight (id : String) : ℚ :=
  if id == "savings_rate" then 0.30
  else if id == "debt_to_income" then 0.30
  else if id == "emergency_fund" then 0.25
  else if id == "net_worth" then 0.15
  else 0

/-- `computeOverallScore`: weighted good=100 / warning=50 / critical=0. -/
def computeOverallScore (ratios : List IFinancialRatio) : Int :=
  jsRound (ratios.foldl
    (fun score ratio =>
      let ratioScore : ℚ :=
        match ratio.status with
        | .good => 100
        | .warning => 50
        | .critical => 0
      score + ratioScore * scoreWeight ratio.id)
    0)

/-- The parameter record of `computeHealthSnapshot`.  `entityTotals` is
    the `Record<string, number>` of entity balances. -/
structure HealthParams where
  movements : List IMovement
  longTermDebts : List ILongTermDebt
  entityTotals : List (String × Int)
  today : Date
deriving DecidableEq, Repr

/-- The trailing-3-month movements `computeHealthSnapshot` averages over. -/
def recentMovements (p : HealthParams) : List IMovement :=
  p.movements.filter (fun m => dateLe (subMonths p.today 3) m.date)

/-- The trailing-3-month income total of `computeHealthSnapshot`. -/
def recentIncomeTotal (p : HealthParams) : Int :=
  (((recentMovements p).filter (fun m => m.typeOfMovement == "1")).map
    (fun m => m.amount)).sum

/-- The trailing-3-month expense total of `computeHealthSnapshot`. -/
def recentExpenseTotal (p : HealthParams) : Int :=
  (((recentMovements p).filter (fun m => m.typeOfMovement == "2")).map
    (fun m => m.amount)).sum

/-- `computeHealthSnapshot`: the full financial-health snapshot. -/
def computeHealthSnapshot (p : HealthParams) : IFinancialHealthSnapshot :=
  let totalAssets := (p.entityTotals.map (fun kv => kv.2)).sum
  let activeDebts := p.longTermDebts.filter (fun d => d.isActive)
  let totalLiabilities := (activeDebts.map (fun d => d.currentPrincipal)).sum
  let netWorth := totalAssets - totalLiabilities
  let monthlyIncome := jsRound ((recentIncomeTotal p : ℚ) / 3)
  let monthlyExpenses := jsRound ((recentExpenseTotal p : ℚ) / 3)
  let monthlyDebtPayments := (activeDebts.map (fun d => d.monthlyPayment)).sum
  let savingsRate : ℚ :=
    if monthlyIncome > 0 then
      ((monthlyIncome - monthlyExpenses - monthlyDebtPayments : Int) : ℚ) /
        (monthlyIncome : ℚ)
    else 0
  let debtToIncomeRatio : Option ℚ :=
    if monthlyIncome > 0 then some ((monthlyDebtPayments : ℚ) / (monthlyIncome : ℚ))
    else none
  let emergencyFundMonths : Option ℚ :=
    if monthlyExpenses > 0 then some ((totalAssets : ℚ) / (monthlyExpenses : ℚ))
    else none
  let ratios := computeRatios savingsRate debtToIncomeRatio emergencyFundMonths netWorth
  { computedAt := p.today
    overallScore := computeOverallScore ratios
    netWorth := netWorth
    totalAssets := totalAssets
    totalLiabilities := totalLiabilities
    monthlyIncome := monthlyIncome
    monthlyExpenses := monthlyExpenses
    monthlyDebtPayments := monthlyDebtPayments
    savingsRate := savingsRate
    debtToIncomeRatio := debtToIncomeRatio
    emergencyFundMonths := emergencyFundMonths
    ratios := ratios }

/-! ## Budget evaluator (`features/budgets/domain/budgetEvaluator.ts`) -/

inductive BudgetPeriod
  | weekly | monthly | quarterly | annual
deriving DecidableEq, Repr

/-- `IBudgetAlert`: a threshold alert already triggered for a period. -/
structure IBudgetAlert where
  id : String
  budgetId : String
  threshold : ℚ
  periodLabel : String
  triggeredAt : String
  actualAmount : Int
  budgetAmount : Int
  dismissed : Bool
deriving DecidableEq, Repr

/-- `IBudget`: a per-period spending limit over categories, optionally
    entity-scoped, with alert thresholds and optional capped rollover. -/
structure IBudget where
  id : String
  name : String
  categoryIds : List String
  entityIds : Option (List String) := none
  limitAmount : Int
  period : BudgetPeriod
  alertThresholds : List ℚ
  isActive : Bool
  rollover : Bool
  rolloverCap : Option Int := none
deriving DecidableEq, Repr

inductive BudgetStatusKind
  | ok | warning | exceeded
deriving DecidableEq, Repr

/-- The `{ start, end, label }` record of `getCurrentPeriodBounds`
    (`stop` stands for the source's `end` field, a Lean keyword). -/
structure PeriodBounds where
  start : Date
  stop : Date
  label : String
deriving DecidableEq, Repr

/-- `getCurrentPeriodBounds`: start/end/label of the current budget
    period around `today`.  Weeks start on Monday; the weekly label is
    the source's `format(today, "yyyy-'W'II")` (calendar year plus
    2-padded ISO week number). -/
def getCurrentPeriodBounds (period : BudgetPeriod) (today : Date) : PeriodBounds :=
  match period with
  | .weekly =>
    { start := startOfWeek 1 today
      stop := endOfWeek 1 today
      label := toString today.year ++ "-W" ++ pad2 (getISOWeek today) }
  | .monthly =>
    { start := startOfMonth today
      stop := endOfMonth today
      label := toString today.year ++ "-" ++ pad2 today.month }
  | .quarterly =>
    { start := startOfQuarter today
      stop := endOfQuarter today
      label := toString today.year ++ "-Q" ++ toString ((today.month + 2) / 3) }
  | .annual =>
    { start := startOfYear today
      stop := endOfYear today
      label := toString today.year }

/-- `IBudgetStatus`: the derived spending status of a budget. -/
structure IBudgetStatus where
  budget : IBudget
  periodStart : Date
  periodEnd : Date
  periodLabel : String
  effectiveLimitAmount : Int
  rolloverAmount : Int
  spentAmount : Int
  remainingAmount : Int
  usagePercentage : Int
  status : BudgetStatusKind
  pendingAlerts : List ℚ
  firedAlerts : List IBudgetAlert
deriving DecidableEq, Repr

/-- The movement filter of `evaluateBudget`: expense type, inside the
    period bounds, category in the budget's set and — when the budget is
    entity-scoped — a non-empty entity contained in the scope (an absent
    or empty-string entity is falsy in the source's `!m.entity` test). -/
def budgetMovementMatches (budget : IBudget) (start stop : Date)
    (m : IMovement) : Bool :=
  m.typeOfMovement == "2" &&
  !(dateLt m.date start || dateLt stop m.date) &&
  budget.categoryIds.contains m.category &&
  (match budget.entityIds with
   | none => true
   | some ids =>
     if ids.length > 0 then
       match m.entity with
       | none => false
       | some s => s != "" && ids.contains s
     else true)

/-- The JS comparison `spentAmount / effectiveLimitAmount >= threshold`
    of the pending-alert filter: a zero limit makes the quotient
    `Infinity` (spent > 0), `NaN` (spent = 0) or `-Infinity` (spent < 0),
    so against a finite threshold of the source's `AlertThreshold` union
    it compares true exactly when spent > 0. -/
def thresholdCrossed (spentAmount effectiveLimitAmount : Int) (threshold : ℚ) : Bool :=
  if effectiveLimitAmount = 0 then decide (spentAmount > 0)
  else decide ((spentAmount : ℚ) / (effectiveLimitAmount : ℚ) ≥ threshold)

/-- `evaluateBudget`: the current spending status of a budget against
    the movements, already-fired alerts and prior-period rollover. -/
def evaluateBudget (budget : IBudget) (movements : List IMovement)
    (firedAlerts : List IBudgetAlert) (priorPeriodRemaining : Int)
    (today : Date) : IBudgetStatus :=
  let bounds := getCurrentPeriodBounds budget.period today
  let relevantMovements :=
    movements.filter (budgetMovementMatches budget bounds.start bounds.stop)
  let spentAmount := (relevantMovements.map (fun m => m.amount)).sum
  let rolloverAmount :=
    if budget.rollover then
      match budget.rolloverCap with
      | some cap => min priorPeriodRemaining cap
      | none => priorPeriodRemaining
    else 0
  let effectiveLimitAmount := budget.limitAmount + rolloverAmount
  let remainingAmount := effectiveLimitAmount - spentAmount
  let usagePercentage :=
    if effectiveLimitAmount > 0 then
      jsRound ((spentAmount : ℚ) / (effectiveLimitAmount : ℚ) * 100)
    else 0
  let status : BudgetStatusKind :=
    if usagePercentage ≥ 100 then .exceeded
    else if usagePercentage ≥ 75 then .warning
    else .ok
  let firedThresholds :=
    (firedAlerts.filter (fun a => a.periodLabel == bounds.label && !a.dismissed)).map
      (fun a => a.threshold)
  let pendingAlerts :=
    budget.alertThresholds.filter (fun threshold =>
      thresholdCrossed spentAmount effectiveLimitAmount threshold &&
      !(firedThresholds.contains threshold))
  { budget := budget
    periodStart := bounds.start
    periodEnd := bounds.stop
    periodLabel := bounds.label
    effectiveLimitAmount := effectiveLimitAmount
    rolloverAmount := rolloverAmount
    spentAmount := spentAmount
    remainingAmount := remainingAmount
    usagePercentage := usagePercentage
    status := status
    pendingAlerts := pendingAlerts
    firedAlerts := firedAlerts.filter (fun a => a.periodLabel == bounds.label) }

/-! ## Analytics aggregator (`features/analytics/domain/analyticsAggregator.ts`) -/

inductive Granularity
  | daily | weekly | monthly
deriving DecidableEq, Repr

/-- `ITimeSeriesPoint`: one bucket of the income/expense time series. -/
structure ITimeSeriesPoint where
  date : Date
  income : Int
  expenses : Int
  net : Int
deriving DecidableEq, Repr

/-- The period buckets `buildTimeSeries` generates: every bucket start in
    `[startDate, endDate]` at the requested granularity. -/
def analyticsBuckets (startDate endDate : Date) : Granularity → List Date
  | .daily => (eachDayOfInterval startDate endDate).map startOfDay
  | .weekly => (eachWeekOfInterval startDate endDate).map (startOfWeek 0)
  | .monthly => (eachMonthOfInterval startDate endDate).map startOfMonth

/-- The `isSamePeriod` predicate `buildTimeSeries` selects per granularity. -/
def sameAnalyticsPeriod : Granularity → Date → Date → Bool
  | .daily => isSameDay
  | .weekly => isSameWeek
  | .monthly => isSameMonth

/-- The body of `buildTimeSeries`'s `periods.map`: the explicit (possibly
    zero-valued) point of one bucket. -/
def timeSeriesPoint (movements : List IMovement) (granularity : Granularity)
    (periodStart : Date) : ITimeSeriesPoint :=
  let periodMovements :=
    movements.filter (fun m => sameAnalyticsPeriod granularity m.date periodStart)
  let income :=
    ((periodMovements.filter (fun m => m.typeOfMovement == "1")).map
      (fun m => m.amount)).sum
  let expenses :=
    ((periodMovements.filter (fun m => m.typeOfMovement == "2")).map
      (fun m => m.amount)).sum
  { date := periodStart, income := income, expenses := expenses
    net := income - expenses }

/-- `buildTimeSeries`: one explicit point per bucket of the range. -/
def buildTimeSeries (movements : List IMovement) (startDate endDate : Date)
    (granularity : Granularity) : List ITimeSeriesPoint :=
  (analyticsBuckets startDate endDate granularity).map
    (timeSeriesPoint movements granularity)

/-! ## Cash-flow forecast engine (`features/forecast/domain/forecastEngine.ts`) -/

inductive ForecastEventType
  | recurring | debt_payment | goal_contribution | manual
deriving DecidableEq, Repr

/-- `IForecastEvent`: one projected in/outflow inside a period. -/
structure IForecastEvent where
  label : String
  amount : Int
  type : ForecastEventType
  sourceId : String
  isEstimated : Bool
deriving DecidableEq, Repr

/-- An element of the optional `goalContributions` argument. -/
structure GoalContribution where
  label : String
  amount : Int
  date : Date
  goalId : String
deriving DecidableEq, Repr

/-- `IForecastEntry`: one projected period of the forecast. -/
structure IForecastEntry where
  date : Date
  openingBalance : Int
  projectedIncome : Int
  projectedExpenses : Int
  netCashFlow : Int
  closingBalance : Int
  isNegative : Bool
  events : List IForecastEvent
deriving DecidableEq, Repr

inductive ForecastPeriodType
  | daily | weekly | monthly
deriving DecidableEq, Repr

/-- The parameter record of `generateForecast`. -/
structure ForecastParams where
  initialBalance : Int
  recurringDebts : List IRecurringDebt
  longTermDebts : List ILongTermDebt
  goalContributions : List GoalContribution := []
  startDate : Date
  horizonMonths : Int
  periodType : ForecastPeriodType
deriving DecidableEq, Repr

/-- `ICashFlowForecast` (without the impure `generatedAt` clock read).
    The lowest-balance fields are `none` only in the vacuous no-period
    corner where the source's `entries[0]` is `undefined`. -/
structure ICashFlowForecast where
  startDate : Date
  endDate : Date
  periodType : ForecastPeriodType
  initialBalance : Int
  entries : List IForecastEntry
  lowestProjectedBalance : Option Int
  lowestProjectedDate : Option Date
  firstNegativeDate : Option Date
deriving DecidableEq, Repr

/-- The period buckets of `generateForecast` for its horizon. -/
def forecastPeriods (p : ForecastParams) : List Date :=
  let endDate := addMonths p.startDate p.horizonMonths
  match p.periodType with
  | .daily => (eachDayOfInterval p.startDate endDate).map startOfDay
  | .weekly => eachWeekOfInterval p.startDate endDate
  | .monthly => eachMonthOfInterval p.startDate endDate

/-- The `isSamePeriod` predicate `generateForecast` selects. -/
def sameForecastPeriod : ForecastPeriodType → Date → Date → Bool
  | .daily => isSameDay
  | .weekly => isSameWeek
  | .monthly => isSameMonth

/-- The event pushed for a recurring rule due in the period.  The
    source's `rule.autoPost || true ? -rule.amount : -rule.amount`
    conditional is always true and both branches negate, so every
    recurring occurrence is an expense. -/
def recurringEvent (rule : IRecurringDebt) : IForecastEvent :=
  { label := rule.name
    amount := if rule.autoPost || true then -rule.amount else -rule.amount
    type := .recurring
    sourceId := rule.id
    isEstimated := rule.estimatedAmount }

/-- The event pushed for a debt's amortization entry due in the period. -/
def debtPaymentEvent (debt : ILongTermDebt) (entry : IAmortizationEntry) :
    IForecastEvent :=
  { label := debt.name ++ " payment"
    amount := -entry.paymentAmount
    type := .debt_payment
    sourceId := debt.id
    isEstimated := false }

/-- The event pushed for a goal contribution due in the period. -/
def goalContributionEvent (contrib : GoalContribution) : IForecastEvent :=
  { label := "Goal: " ++ contrib.label
    amount := -contrib.amount
    type := .goal_contribution
    sourceId := contrib.goalId
    isEstimated := false }

/-- The events `generateForecast` collects for one period bucket: each
    active rule whose `nextDueDate` is in the bucket, each non-paid
    amortization entry of an active debt due in the bucket, and each goal
    contribution dated in the bucket. -/
def periodEvents (p : ForecastParams) (periodStart : Date) : List IForecastEvent :=
  ((p.recurringDebts.filter (fun rule =>
      rule.isActive &&
      sameForecastPeriod p.periodType rule.nextDueDate periodStart)).map
    recurringEvent) ++
  ((p.longTermDebts.filter (fun debt => debt.isActive)).map (fun debt =>
      (debt.amortizationTable.filter (fun entry =>
        entry.status != EntryStatus.paid &&
        sameForecastPeriod p.periodType entry.dueDate periodStart)).map
        (debtPaymentEvent debt))).flatten ++
  ((p.goalContributions.filter (fun contrib =>
      sameForecastPeriod p.periodType contrib.date periodStart)).map
    goalContributionEvent)

/-- The sum of the positive event amounts of a period (`projectedIncome`). -/
def sumPositiveEvents (events : List IForecastEvent) : Int :=
  ((events.filter (fun e => decide (e.amount > 0))).map (fun e => e.amount)).sum

/-- The sum of the absolute negative event amounts (`projectedExpenses`). -/
def sumNegativeEvents (events : List IForecastEvent) : Int :=
  ((events.filter (fun e => decide (e.amount < 0))).map (fun e => |e.amount|)).sum

/-- The main loop of `generateForecast`: one entry per period, threading
    the running balance. -/
def forecastEntries (p : ForecastParams) : List Date → Int → List IForecastEntry
  | [], _ => []
  | periodStart :: rest, runningBalance =>
    let events := periodEvents p periodStart
    let projectedIncome := sumPositiveEvents events
    let projectedExpenses := sumNegativeEvents events
    let netCashFlow := projectedIncome - projectedExpenses
    let closingBalance := runningBalance + netCashFlow
    { date := periodStart
      openingBalance := runningBalance
      projectedIncome := projectedIncome
      projectedExpenses := projectedExpenses
      netCashFlow := netCashFlow
      closingBalance := closingBalance
      isNegative := decide (closingBalance < 0)
      events := events } :: forecastEntries p rest closingBalance

/-- `generateForecast`: the full cash-flow forecast. -/
def generateForecast (p : ForecastParams) : ICashFlowForecast :=
  let endDate := addMonths p.startDate p.horizonMonths
  let entries := forecastEntries p (forecastPeriods p) p.initialBalance
  let lowestEntry : Option IForecastEntry :=
    match entries with
    | [] => none
    | e0 :: _ =>
      some (entries.foldl
        (fun m e => if e.closingBalance < m.closingBalance then e else m) e0)
  { startDate := p.startDate
    endDate := endDate
    periodType := p.periodType
    initialBalance := p.initialBalance
    entries := entries
    lowestProjectedBalance := lowestEntry.map (fun e => e.closingBalance)
    lowestProjectedDate := lowestEntry.map (fun e => e.date)
    firstNegativeDate := (entries.find? (fun e => e.isNegative)).map (fun e => e.date) }

/-! ## Concrete instances used to exercise the theorems -/

/-- The successful table of an amortization computation (`[]` on error);
    used to instantiate theorems at concrete inputs. -/
def okTable (x : Except String (List IAmortizationEntry)) :
    List IAmortizationEntry :=
  match x with
  | .ok t => t
  | .error _ => []

/-- A small concrete amortization table: 1,000 cents at 12 % over 2 months. -/
def wTable : List IAmortizationEntry :=
  okTable (computeFrenchAmortizationTable 1000 0.12 2 ⟨2026, 1, 1⟩)

/-- Placeholder amortization entry for `Option.getD` extractions. -/
def noAmortEntry : IAmortizationEntry :=
  { periodNumber := 0, dueDate := ⟨0, 1, 1⟩, paymentAmount := 0
    principalAmount := 0, interestAmount := 0, remainingPrincipal := 0
    status := .pending }

/-- First scheduled payment of a small 3-month loan. -/
def wEntry1 : IAmortizationEntry :=
  { periodNumber := 1, dueDate := ⟨2026, 2, 1⟩, paymentAmount := 340
    principalAmount := 330, interestAmount := 10, remainingPrincipal := 670
    status := .paid }

/-- Second scheduled payment of the small loan. -/
def wEntry2 : IAmortizationEntry :=
  { periodNumber := 2, dueDate := ⟨2026, 3, 1⟩, paymentAmount := 340
    principalAmount := 333, interestAmount := 7, remainingPrincipal := 337
    status := .pending }

/-- Third scheduled payment of the small loan. -/
def wEntry3 : IAmortizationEntry :=
  { periodNumber := 3, dueDate := ⟨2026, 4, 1⟩, paymentAmount := 340
    principalAmount := 337, interestAmount := 3, remainingPrincipal := 0
    status := .pending }

/-- A small concrete 3-month loan with one paid period. -/
def wDebt : ILongTermDebt :=
  { id := "d1", name := "Car", originalPrincipal := 1000
    currentPrincipal := 670, annualInterestRate := 0.12, monthlyPayment := 340
    termMonths := 3, startDate := ⟨2026, 1, 1⟩
    amortizationTable := [wEntry1, wEntry2, wEntry3], isActive := true }

/-- The monthly food budget of the repository's budget-evaluator tests. -/
def mockBudget : IBudget :=
  { id := "1", name := "Food", categoryIds := ["1"], limitAmount := 500000
    period := .monthly, alertThresholds := [0.8, 1.0], isActive := true
    rollover := false }

/-- An in-period expense movement of 450,000 cents (crosses the 80 %
    threshold of `mockBudget` but not 100 %). -/
def cxMovement : IMovement :=
  { id := "1", description := "", amount := 450000, typeOfMovement := "2"
    category := "1", date := ⟨2026, 2, 15⟩, entity := none }

/-- An already-fired-and-dismissed 80 % alert for the current period. -/
def cxAlertDismissed : IBudgetAlert :=
  { id := "a1", budgetId := "1", threshold := 0.8, periodLabel := "2026-02"
    triggeredAt := "", actualAmount := 450000, budgetAmount := 500000
    dismissed := true }

/-- The same fired 80 % alert, not dismissed. -/
def cxAlertLive : IBudgetAlert :=
  { cxAlertDismissed with id := "a2", dismissed := false }

/-- Health-calculator input with no movements at all (zero trailing income). -/
def wHealthParams : HealthParams :=
  { movements := [], longTermDebts := [], entityTotals := [("1", 1000000)]
    today := ⟨2026, 2, 20⟩ }

/-- A monthly recurring rule next due on 2026-01-15. -/
def cxRule : IRecurringDebt :=
  { id := "r1", name := "Rent", amount := 50000, category := "1"
    frequency := .monthly, startDate := ⟨2026, 1, 1⟩
    nextDueDate := ⟨2026, 1, 15⟩, isActive := true, autoPost := true
    estimatedAmount := false }

/-- A 3-month monthly forecast over the single rule `cxRule`. -/
def cxParams : ForecastParams :=
  { initialBalance := 0, recurringDebts := [cxRule], longTermDebts := []
    startDate := ⟨2026, 1, 1⟩, horizonMonths := 3, periodType := .monthly }

/-- Placeholder forecast entry for `Option.getD` extractions. -/
def noForecastEntry : IForecastEntry :=
  { date := ⟨0, 1, 1⟩, openingBalance := 0, projectedIncome := 0
    projectedExpenses := 0, netCashFlow := 0, closingBalance := 0
    isNegative := false, events := [] }

/-- The first entry of the concrete forecast. -/
def wfEntry0 : IForecastEntry :=
  ((generateForecast cxParams).entries[0]?).getD noForecastEntry

/-- The second entry of the concrete forecast. -/
def wfEntry1 : IForecastEntry :=
  ((generateForecast cxParams).entries[1]?).getD noForecastEntry

/-! ## Lemmas about the amortization loop -/

theorem frenchRows_map_periodNumber (mp : Int) (r : ℚ) (s : Date) (T : Int)
    (idxs : List Int) : ∀ rem : Int,
    (frenchRows mp r s T idxs rem).map (fun e => e.periodNumber) = idxs := by
  induction idxs with
  | nil => intro rem; rfl
  | cons i rest ih =>
    intro rem
    simp only [frenchRows, List.map_cons, ih]

theorem frenchRemaining_append (mp : Int) (r : ℚ) (T : Int)
    (a b : List Int) : ∀ rem : Int,
    frenchRemaining mp r T (a ++ b) rem =
      frenchRemaining mp r T b (frenchRemaining mp r T a rem) := by
  induction a with
  | nil => intro rem; rfl
  | cons i rest ih =>
    intro rem
    simp only [List.cons_append, frenchRemaining, List.append_eq, ih]

theorem frenchRows_append (mp : Int) (r : ℚ) (s : Date) (T : Int)
    (a b : List Int) : ∀ rem : Int,
    frenchRows mp r s T (a ++ b) rem =
      frenchRows mp r s T a rem ++
        frenchRows mp r s T b (frenchRemaining mp r T a rem) := by
  induction a with
  | nil => intro rem; rfl
  | cons i rest ih =>
    intro rem
    simp only [List.cons_append, frenchRows, frenchRemaining, List.append_eq, ih]

theorem frenchRows_sum_principal (mp : Int) (r : ℚ) (s : Date) (T : Int)
    (idxs : List Int) : ∀ rem : Int,
    ((frenchRows mp r s T idxs rem).map (fun e => e.principalAmount)).sum =
      rem - frenchRemaining mp r T idxs rem := by
  induction idxs with
  | nil => intro rem; simp [frenchRows, frenchRemaining]
  | cons i rest ih =>
    intro rem
    simp only [frenchRows, frenchRemaining, List.map_cons, List.sum_cons, ih]
    ring

theorem frenchRemaining_final (mp : Int) (r : ℚ) (T rem : Int) :
    frenchRemaining mp r T [T] rem = 0 := by
  simp [frenchRemaining]

theorem frenchRows_remaining_nonneg (mp : Int) (r : ℚ) (s : Date) (T : Int)
    (idxs : List Int) : ∀ rem : Int, ∀ e ∈ frenchRows mp r s T idxs rem,
    0 ≤ e.remainingPrincipal := by
  induction idxs with
  | nil => intro rem e he; simp [frenchRows] at he
  | cons i rest ih =>
    intro rem e he
    simp only [frenchRows, List.mem_cons] at he
    rcases he with h | h
    · subst h; exact le_max_left 0 _
    · exact ih _ e h

theorem frenchIdxs_concat (T : Int) (hT : 0 < T) :
    ∃ front, frenchIdxs T = front ++ [T] := by
  obtain ⟨m, hm⟩ : ∃ m, T.toNat = m + 1 := ⟨T.toNat - 1, by omega⟩
  refine ⟨List.map (fun k : ℕ => (k : Int) + 1) (List.range m), ?_⟩
  unfold frenchIdxs
  rw [hm, List.range_succ, List.map_append]
  simp only [List.map_cons, List.map_nil, List.append_cancel_left_eq,
    List.cons.injEq, and_true]
  omega

theorem frenchRows_single_final (mp : Int) (r : ℚ) (s : Date) (T rem : Int) :
    frenchRows mp r s T [T] rem =
      [{ periodNumber := T, dueDate := addMonths s T
         paymentAmount := rem + jsRound (rem * r)
         principalAmount := rem, interestAmount := jsRound (rem * r)
         remainingPrincipal := 0, status := .pending }] := by
  simp [frenchRows]

/-! ## Claim theorems: amortization -/

/-- **C1**: for every principal > 0, annual rate > 0 and term > 0 the
    French amortization computation succeeds with a schedule whose
    principal portions sum exactly to the principal and whose final
    entry's remaining principal is exactly 0. -/
theorem amortization_balance_law (principal : Int) (annualRate : ℚ)
    (termMonths : Int) (startDate : Date) (table : List IAmortizationEntry)
    (hp : 0 < principal) (hr : 0 < annualRate) (ht : 0 < termMonths)
    (h : computeFrenchAmortizationTable principal annualRate termMonths
      startDate = .ok table) :
    (table.map (fun e => e.principalAmount)).sum = principal ∧
      (table.getLast?).map (fun e => e.remainingPrincipal) = some 0 := by
  rw [computeFrenchAmortizationTable, if_neg (by omega),
    if_neg (by exact not_le.mpr hr), if_neg (by omega),
    Except.ok.injEq] at h
  obtain ⟨front, hfront⟩ := frenchIdxs_concat termMonths ht
  subst h
  rw [hfront]
  constructor
  · rw [frenchRows_sum_principal, frenchRemaining_append,
      frenchRemaining_final]
    ring
  · rw [frenchRows_append, frenchRows_single_final, List.getLast?_concat]
    rfl

/-- **C9**: under the same positive preconditions, every entry of the
    schedule (not only the final one) reports a remaining principal ≥ 0:
    the running balance is clamped at zero. -/
theorem amortization_nonnegative_balance (principal : Int) (annualRate : ℚ)
    (termMonths : Int) (startDate : Date) (table : List IAmortizationEntry)
    (hp : 0 < principal) (hr : 0 < annualRate) (ht : 0 < termMonths)
    (h : computeFrenchAmortizationTable principal annualRate termMonths
      startDate = .ok table) :
    ∀ e ∈ table, 0 ≤ e.remainingPrincipal := by
  rw [computeFrenchAmortizationTable, if_neg (by omega),
    if_neg (by exact not_le.mpr hr), if_neg (by omega),
    Except.ok.injEq] at h
  subst h
  exact frenchRows_remaining_nonneg _ _ _ _ _ _

/-- Witness for C1 at principal 1000 cents, 12 % annual, 2 months. -/
theorem amortization_balance_law_witness :
    (wTable.map (fun e => e.principalAmount)).sum = 1000 ∧
      (wTable.getLast?).map (fun e => e.remainingPrincipal) = some 0 :=
  amortization_balance_law 1000 0.12 2 ⟨2026, 1, 1⟩ wTable
    (by decide) (by decide) (by decide) (by rfl)

/-- Witness for C9: the first entry of the concrete table has a
    nonnegative remaining principal. -/
theorem amortization_nonnegative_balance_witness :
    0 ≤ ((wTable[0]?).getD noAmortEntry).remainingPrincipal :=
  amortization_nonnegative_balance 1000 0.12 2 ⟨2026, 1, 1⟩ wTable
    (by decide) (by decide) (by decide) (by rfl)
    ((wTable[0]?).getD noAmortEntry) (by decide)

/-- **C7**: when an entry carries `fromPeriod` and the regeneration
    parameters are valid, `recomputeFromPeriod` returns the unchanged
    entries before `fromPeriod` (exactly the filter of the existing
    schedule) followed by regenerated entries whose period numbers run
    contiguously `fromPeriod, fromPeriod+1, …, termMonths`. -/
theorem recompute_preserves_prefix (debt : ILongTermDebt)
    (fromPeriod newPrincipal : Int) (e0 : IAmortizationEntry)
    (hfind : debt.amortizationTable.find?
      (fun e => e.periodNumber == fromPeriod) = some e0)
    (hp : 0 < newPrincipal) (hr : 0 < debt.annualInterestRate)
    (ht : fromPeriod ≤ debt.termMonths) :
    ∃ rest, recomputeFromPeriod debt fromPeriod newPrincipal =
        some (debt.amortizationTable.filter
          (fun e => decide (e.periodNumber < fromPeriod)) ++ rest) ∧
      rest.map (fun e => e.periodNumber) =
        List.map (fun k : ℕ => fromPeriod + (k : Int))
          (List.range (debt.termMonths - fromPeriod + 1).toNat) ∧
      ∀ e ∈ rest, fromPeriod ≤ e.periodNumber := by
  have hcompute : computeFrenchAmortizationTable newPrincipal
      debt.annualInterestRate (debt.termMonths - fromPeriod + 1)
      (addMonths e0.dueDate (-1)) =
      .ok (frenchRows (frenchMonthlyPayment newPrincipal
          debt.annualInterestRate (debt.termMonths - fromPeriod + 1))
        (debt.annualInterestRate / 12) (addMonths e0.dueDate (-1))
        (debt.termMonths - fromPeriod + 1)
        (frenchIdxs (debt.termMonths - fromPeriod + 1)) newPrincipal) := by
    rw [computeFrenchAmortizationTable, if_neg (by omega),
      if_neg (by exact not_le.mpr hr), if_neg (by omega)]
  simp only [recomputeFromPeriod, hfind, hcompute]
  refine ⟨_, rfl, ?_, ?_⟩
  · rw [List.map_map]
    have hcomp :
        (fun e : IAmortizationEntry => e.periodNumber) ∘
          (fun e : IAmortizationEntry =>
            { e with periodNumber := e.periodNumber + fromPeriod - 1 }) =
        fun e : IAmortizationEntry => e.periodNumber + fromPeriod - 1 := rfl
    rw [hcomp]
    have hshift : ∀ idxs : List Int, ∀ rem : Int,
        (frenchRows (frenchMonthlyPayment newPrincipal debt.annualInterestRate
            (debt.termMonths - fromPeriod + 1)) (debt.annualInterestRate / 12)
          (addMonths e0.dueDate (-1)) (debt.termMonths - fromPeriod + 1) idxs rem).map
          (fun e => e.periodNumber + fromPeriod - 1) =
        idxs.map (fun i => i + fromPeriod - 1) := by
      intro idxs
      induction idxs with
      | nil => intro rem; rfl
      | cons i t ih => intro rem; simp only [frenchRows, List.map_cons, ih]
    rw [hshift, frenchIdxs, List.map_map]
    have : ((fun i : Int => i + fromPeriod - 1) ∘ fun k : ℕ => (k : Int) + 1) =
        fun k : ℕ => fromPeriod + (k : Int) := by
      funext k
      simp only [Function.comp_apply]
      ring
    rw [this]
  · intro e he
    have hm : e.periodNumber ∈
        (List.map (fun e : IAmortizationEntry =>
          { e with periodNumber := e.periodNumber + fromPeriod - 1 })
          (frenchRows (frenchMonthlyPayment newPrincipal debt.annualInterestRate
            (debt.termMonths - fromPeriod + 1)) (debt.annualInterestRate / 12)
            (addMonths e0.dueDate (-1)) (debt.termMonths - fromPeriod + 1)
            (frenchIdxs (debt.termMonths - fromPeriod + 1)) newPrincipal)).map
          (fun e => e.periodNumber) :=
      List.mem_map_of_mem _ he
    rw [List.map_map] at hm
    have hcomp :
        (fun e : IAmortizationEntry => e.periodNumber) ∘
          (fun e : IAmortizationEntry =>
            { e with periodNumber := e.periodNumber + fromPeriod - 1 }) =
        fun e : IAmortizationEntry => e.periodNumber + fromPeriod - 1 := rfl
    rw [hcomp, show (fun e : IAmortizationEntry => e.periodNumber + fromPeriod - 1) =
      ((fun i : Int => i + fromPeriod - 1) ∘ fun e : IAmortizationEntry =>
        e.periodNumber) from rfl, ← List.map_map, frenchRows_map_periodNumber,
      frenchIdxs, List.map_map] at hm
    obtain ⟨k, _, hk⟩ := List.mem_map.mp hm
    simp only [Function.comp_apply] at hk
    omega

/-- Witness for C7 at the concrete 3-month loan, recomputing from
    period 2 with a new principal of 600 cents. -/
theorem recompute_preserves_prefix_witness :
    ∃ rest, recomputeFromPeriod wDebt 2 600 =
        some (wDebt.amortizationTable.filter
          (fun e => decide (e.periodNumber < 2)) ++ rest) ∧
      rest.map (fun e => e.periodNumber) =
        List.map (fun k : ℕ => 2 + (k : Int))
          (List.range (wDebt.termMonths - 2 + 1).toNat) ∧
      ∀ e ∈ rest, 2 ≤ e.periodNumber :=
  recompute_preserves_prefix wDebt 2 600 wEntry2 (by decide) (by decide)
    (by decide) (by decide)

/-- **C8**: `advanceNextDueDate` on 2026-01-31 with monthly frequency
    yields 2026-02-28 (not 2026-03-03), and in general the
    monthly/quarterly/annual advancements add 1/3/12 calendar months
    (the month index advances by exactly that amount) while clamping the
    day-of-month to the last valid day of the target month. -/
theorem advance_calendar_clamp :
    advanceNextDueDate ⟨2026, 1, 31⟩ .monthly = ⟨2026, 2, 28⟩ ∧
    advanceNextDueDate ⟨2026, 1, 31⟩ .monthly ≠ ⟨2026, 3, 3⟩ ∧
    ∀ d : Date,
      (12 * (advanceNextDueDate d .monthly).year +
          ((advanceNextDueDate d .monthly).month - 1) =
          12 * d.year + (d.month - 1) + 1 ∧
        (advanceNextDueDate d .monthly).day =
          min d.day (daysInMonth (advanceNextDueDate d .monthly).year
            (advanceNextDueDate d .monthly).month)) ∧
      (12 * (advanceNextDueDate d .quarterly).year +
          ((advanceNextDueDate d .quarterly).month - 1) =
          12 * d.year + (d.month - 1) + 3 ∧
        (advanceNextDueDate d .quarterly).day =
          min d.day (daysInMonth (advanceNextDueDate d .quarterly).year
            (advanceNextDueDate d .quarterly).month)) ∧
      (12 * (advanceNextDueDate d .annual).year +
          ((advanceNextDueDate d .annual).month - 1) =
          12 * d.year + (d.month - 1) + 12 ∧
        (advanceNextDueDate d .annual).day =
          min d.day (daysInMonth (advanceNextDueDate d .annual).year
            (advanceNextDueDate d .annual).month)) := by
  refine ⟨by decide, by decide, fun d => ⟨⟨?_, rfl⟩, ⟨?_, rfl⟩, ⟨?_, rfl⟩⟩⟩
  all_goals
    simp only [advanceNextDueDate, addQuarters, addYears, addMonths]
    omega

/-! ## Claim theorems: budget evaluator -/

/-- **C3 (counterexample)**: the claim fails as stated.  With the
    repository's mock budget, an in-period expense of 450,000 cents and a
    fired-but-**dismissed** 80 % alert carrying the current period label,
    re-evaluation re-adds threshold 0.8 to `pendingAlerts`: the
    deduplication keys on *un-dismissed* alerts only. -/
theorem budget_alert_dedup_cx :
    cxAlertDismissed ∈ [cxAlertDismissed] ∧
    cxAlertDismissed.threshold = 0.8 ∧
    cxAlertDismissed.periodLabel =
      (evaluateBudget mockBudget [cxMovement] [cxAlertDismissed] 0
        ⟨2026, 2, 20⟩).periodLabel ∧
    (0.8 : ℚ) ∈ (evaluateBudget mockBudget [cxMovement] [cxAlertDismissed] 0
      ⟨2026, 2, 20⟩).pendingAlerts := by
  refine ⟨by decide, by decide, by decide, by decide⟩

/-- **C3 (amended)**: re-evaluating a budget with the same inputs and the
    same `firedAlerts` never re-adds a threshold for which an
    **un-dismissed** fired alert with the current period label already
    exists. -/
theorem budget_alert_dedup (budget : IBudget) (movements : List IMovement)
    (firedAlerts : List IBudgetAlert) (priorPeriodRemaining : Int)
    (today : Date) (t : ℚ) (a : IBudgetAlert) (ha : a ∈ firedAlerts)
    (hth : a.threshold = t)
    (hlabel : a.periodLabel = (evaluateBudget budget movements firedAlerts
      priorPeriodRemaining today).periodLabel)
    (hdis : a.dismissed = false) :
    t ∉ (evaluateBudget budget movements firedAlerts priorPeriodRemaining
      today).pendingAlerts := by
  intro hmem
  simp only [evaluateBudget] at hmem hlabel
  rw [List.mem_filter] at hmem
  obtain ⟨-, hcond⟩ := hmem
  rw [Bool.and_eq_true, Bool.not_eq_true'] at hcond
  obtain ⟨-, hnc⟩ := hcond
  have htm : t ∈ (firedAlerts.filter (fun a =>
      a.periodLabel == (getCurrentPeriodBounds budget.period today).label &&
      !a.dismissed)).map (fun a => a.threshold) := by
    rw [← hth]
    exact List.mem_map_of_mem _ (List.mem_filter.mpr ⟨ha, by
      rw [hlabel, hdis]
      simp⟩)
  have hnc2 : List.elem t ((firedAlerts.filter (fun a =>
      a.periodLabel == (getCurrentPeriodBounds budget.period today).label &&
      !a.dismissed)).map (fun a => a.threshold)) = false := hnc
  rw [List.elem_eq_true_of_mem htm] at hnc2
  simp at hnc2

/-- Witness for the amended C3: with the same fired alert not dismissed,
    0.8 is absent from `pendingAlerts`. -/
theorem budget_alert_dedup_witness :
    (0.8 : ℚ) ∉ (evaluateBudget mockBudget [cxMovement] [cxAlertLive] 0
      ⟨2026, 2, 20⟩).pendingAlerts :=
  budget_alert_dedup mockBudget [cxMovement] [cxAlertLive] 0 ⟨2026, 2, 20⟩
    0.8 cxAlertLive (by decide) (by decide) (by decide) (by decide)

/-! ## Claim theorems: financial-health calculator -/

/-- **C4**: when the trailing-3-month income is zero the snapshot is
    still produced (the computation is total — no exception), with
    `savingsRate = 0` and `debtToIncomeRatio` reported as the
    undefined-ratio sentinel rather than a number. -/
theorem health_zero_income (p : HealthParams)
    (h : recentIncomeTotal p = 0) :
    (computeHealthSnapshot p).savingsRate = 0 ∧
      (computeHealthSnapshot p).debtToIncomeRatio = none := by
  have hmi : jsRound ((recentIncomeTotal p : ℚ) / 3) = 0 := by
    rw [h]
    decide
  simp only [computeHealthSnapshot, hmi]
  norm_num

/-- Witness for C4 on a movement-free input. -/
theorem health_zero_income_witness :
    (computeHealthSnapshot wHealthParams).savingsRate = 0 ∧
      (computeHealthSnapshot wHealthParams).debtToIncomeRatio = none :=
  health_zero_income wHealthParams (by decide)

/-! ## Claim theorems: analytics aggregator -/

/-- **C5**: the time series has exactly one point per bucket of the range
    at the requested granularity (same length, i-th point dated at the
    i-th bucket), and a bucket matching no movement yields the explicit
    zero point — never a gap. -/
theorem analytics_zero_gap (movements : List IMovement)
    (startDate endDate : Date) (granularity : Granularity) (i : ℕ) (b : Date)
    (hb : (analyticsBuckets startDate endDate granularity)[i]? = some b) :
    (buildTimeSeries movements startDate endDate granularity).length =
      (analyticsBuckets startDate endDate granularity).length ∧
    ((buildTimeSeries movements startDate endDate granularity)[i]?).map
      (fun pt => pt.date) = some b ∧
    ((∀ m ∈ movements, sameAnalyticsPeriod granularity m.date b = false) →
      (buildTimeSeries movements startDate endDate granularity)[i]? =
        some ⟨b, 0, 0, 0⟩) := by
  refine ⟨by rw [buildTimeSeries, List.length_map], ?_, ?_⟩
  · rw [buildTimeSeries, List.getElem?_map, hb]
    rfl
  · intro hempty
    rw [buildTimeSeries, List.getElem?_map, hb]
    have hfil : movements.filter
        (fun m => sameAnalyticsPeriod granularity m.date b) = [] :=
      List.filter_eq_nil_iff.mpr (fun m hm => by simp [hempty m hm])
    show some (timeSeriesPoint movements granularity b) =
      some ⟨b, 0, 0, 0⟩
    rw [timeSeriesPoint, hfil]
    rfl

/-- Witness for C5: the third daily bucket of an empty-movement report is
    the explicit zero point for 2026-02-03. -/
theorem analytics_zero_gap_witness :
    (buildTimeSeries [] ⟨2026, 2, 1⟩ ⟨2026, 2, 5⟩ .daily)[2]? =
      some ⟨⟨2026, 2, 3⟩, 0, 0, 0⟩ :=
  (analytics_zero_gap [] ⟨2026, 2, 1⟩ ⟨2026, 2, 5⟩ .daily 2 ⟨2026, 2, 3⟩
    (by decide)).2.2 (by simp)

/-! ## Lemmas about the forecast loop -/

theorem forecastEntries_head_opening (p : ForecastParams) (ps : List Date)
    (bal : Int) (e : IForecastEntry)
    (h : (forecastEntries p ps bal)[0]? = some e) :
    e.openingBalance = bal := by
  cases ps with
  | nil => simp [forecastEntries] at h
  | cons q rest =>
    simp only [forecastEntries, List.getElem?_cons_zero,
      Option.some.injEq] at h
    subst h
    rfl

theorem forecastEntries_chain (p : ForecastParams) (ps : List Date) :
    ∀ (bal : Int) (i : ℕ) (e1 e2 : IForecastEntry),
      (forecastEntries p ps bal)[i]? = some e1 →
      (forecastEntries p ps bal)[i + 1]? = some e2 →
      e2.openingBalance = e1.closingBalance := by
  induction ps with
  | nil =>
    intro bal i e1 e2 h1 _
    simp [forecastEntries] at h1
  | cons q rest ih =>
    intro bal i e1 e2 h1 h2
    match i with
    | 0 =>
      simp only [forecastEntries, List.getElem?_cons_zero,
        Option.some.injEq] at h1
      simp only [forecastEntries, List.getElem?_cons_succ] at h2
      have hopen := forecastEntries_head_opening p rest _ e2 h2
      rw [hopen, ← h1]
    | j + 1 =>
      simp only [forecastEntries, List.getElem?_cons_succ] at h1 h2
      exact ih _ j e1 e2 h1 h2

theorem forecastEntries_events (p : ForecastParams) (ps : List Date) :
    ∀ (bal : Int) (i : ℕ) (d : Date) (en : IForecastEntry),
      ps[i]? = some d →
      (forecastEntries p ps bal)[i]? = some en →
      en.events = periodEvents p d ∧
        en.projectedIncome = sumPositiveEvents en.events ∧
        en.projectedExpenses = sumNegativeEvents en.events := by
  induction ps with
  | nil =>
    intro bal i d en h1 _
    simp at h1
  | cons q rest ih =>
    intro bal i d en h1 h2
    match i with
    | 0 =>
      simp only [List.getElem?_cons_zero, Option.some.injEq] at h1
      simp only [forecastEntries, List.getElem?_cons_zero,
        Option.some.injEq] at h2
      subst h1
      subst h2
      exact ⟨rfl, rfl, rfl⟩
    | j + 1 =>
      simp only [List.getElem?_cons_succ] at h1
      simp only [forecastEntries, List.getElem?_cons_succ] at h2
      exact ih _ j d en h1 h2

theorem periodEvents_nonpos (p : ForecastParams)
    (hr : ∀ r ∈ p.recurringDebts, 0 ≤ r.amount)
    (hd : ∀ d ∈ p.longTermDebts, ∀ e ∈ d.amortizationTable,
      0 ≤ e.paymentAmount)
    (hg : ∀ c ∈ p.goalContributions, 0 ≤ c.amount)
    (periodStart : Date) :
    ∀ ev ∈ periodEvents p periodStart, ev.amount ≤ 0 := by
  intro ev hev
  rw [periodEvents] at hev
  rcases List.mem_append.mp hev with h | hgoal
  · rcases List.mem_append.mp h with h1 | h2
    · obtain ⟨r, hrmem, hre⟩ := List.mem_map.mp h1
      obtain ⟨hrl, -⟩ := List.mem_filter.mp hrmem
      subst hre
      have := hr r hrl
      simp only [recurringEvent, Bool.or_true, if_pos]
      omega
    · obtain ⟨l, hl, hevl⟩ := List.mem_flatten.mp h2
      obtain ⟨debt, hdmem, hdl⟩ := List.mem_map.mp hl
      subst hdl
      obtain ⟨entry, hemem, hee⟩ := List.mem_map.mp hevl
      obtain ⟨hel, -⟩ := List.mem_filter.mp hemem
      subst hee
      have := hd debt (List.mem_filter.mp hdmem).1 entry hel
      simp only [debtPaymentEvent]
      omega
  · obtain ⟨c, hcmem, hce⟩ := List.mem_map.mp hgoal
    obtain ⟨hcl, -⟩ := List.mem_filter.mp hcmem
    subst hce
    have := hg c hcl
    simp only [goalContributionEvent]
    omega

theorem forecastEntries_nonpos (p : ForecastParams)
    (hr : ∀ r ∈ p.recurringDebts, 0 ≤ r.amount)
    (hd : ∀ d ∈ p.longTermDebts, ∀ e ∈ d.amortizationTable,
      0 ≤ e.paymentAmount)
    (hg : ∀ c ∈ p.goalContributions, 0 ≤ c.amount) :
    ∀ (ps : List Date) (bal : Int), ∀ en ∈ forecastEntries p ps bal,
      (∀ ev ∈ en.events, ev.amount ≤ 0) ∧ en.projectedIncome = 0 ∧
        en.closingBalance ≤ en.openingBalance := by
  intro ps
  induction ps with
  | nil =>
    intro bal en hen
    simp [forecastEntries] at hen
  | cons q rest ih =>
    intro bal en hen
    simp only [forecastEntries, List.mem_cons] at hen
    rcases hen with h | h
    · subst h
      have hev := periodEvents_nonpos p hr hd hg q
      have hpos : sumPositiveEvents (periodEvents p q) = 0 := by
        rw [sumPositiveEvents,
          List.filter_eq_nil_iff.mpr (fun e he => by
            simp only [decide_eq_true_eq, not_lt]
            exact hev e he)]
        rfl
      have hneg : 0 ≤ sumNegativeEvents (periodEvents p q) := by
        rw [sumNegativeEvents]
        refine List.sum_nonneg ?_
        intro x hx
        obtain ⟨e, -, he⟩ := List.mem_map.mp hx
        subst he
        exact abs_nonneg _
      refine ⟨hev, hpos, ?_⟩
      show bal + (sumPositiveEvents (periodEvents p q) -
        sumNegativeEvents (periodEvents p q)) ≤ bal
      omega
    · exact ih _ en h

/-! ## Claim theorems: cash-flow forecast engine -/

/-- **C6**: consecutive forecast entries chain: each entry's opening
    balance is exactly the previous entry's closing balance. -/
theorem forecast_chaining (p : ForecastParams) (i : ℕ)
    (e1 e2 : IForecastEntry)
    (h1 : (generateForecast p).entries[i]? = some e1)
    (h2 : (generateForecast p).entries[i + 1]? = some e2) :
    e2.openingBalance = e1.closingBalance := by
  have hE : (generateForecast p).entries =
      forecastEntries p (forecastPeriods p) p.initialBalance := rfl
  rw [hE] at h1 h2
  exact forecastEntries_chain p (forecastPeriods p) p.initialBalance i e1 e2 h1 h2

/-- Witness for C6 on the concrete 3-month forecast. -/
theorem forecast_chaining_witness :
    wfEntry1.openingBalance = wfEntry0.closingBalance :=
  forecast_chaining cxParams 0 wfEntry0 wfEntry1 (by decide) (by decide)

/-- **C10**: when every rule amount, scheduled payment amount and goal
    contribution is nonnegative (the data model's invariant), every event
    the forecast produces has a non-positive amount — the engine negates
    recurring, debt and goal amounts alike, regardless of income/expense
    nature or `autoPost` — so every entry has `projectedIncome = 0` and a
    closing balance no greater than its opening balance (the projected
    balance sequence never increases). -/
theorem forecast_all_events_nonpositive (p : ForecastParams)
    (hr : ∀ r ∈ p.recurringDebts, 0 ≤ r.amount)
    (hd : ∀ d ∈ p.longTermDebts, ∀ e ∈ d.amortizationTable,
      0 ≤ e.paymentAmount)
    (hg : ∀ c ∈ p.goalContributions, 0 ≤ c.amount) :
    ∀ en ∈ (generateForecast p).entries,
      (∀ ev ∈ en.events, ev.amount ≤ 0) ∧ en.projectedIncome = 0 ∧
        en.closingBalance ≤ en.openingBalance := by
  have hE : (generateForecast p).entries =
      forecastEntries p (forecastPeriods p) p.initialBalance := rfl
  rw [hE]
  exact forecastEntries_nonpos p hr hd hg (forecastPeriods p) p.initialBalance

/-- Witness for C10 at the concrete forecast's first entry. -/
theorem forecast_all_events_nonpositive_witness :
    wfEntry0.projectedIncome = 0 ∧
      wfEntry0.closingBalance ≤ wfEntry0.openingBalance :=
  (forecast_all_events_nonpositive cxParams (by decide) (by decide)
    (by decide) wfEntry0 (by decide)).2

/-- **C2 (counterexample)**: the claim fails as stated.  `cxRule` is a
    monthly rule due 2026-01-15 inside a 3-month monthly forecast; its
    second occurrence (one monthly advance, 2026-02-15) falls in the
    second bucket, yet that bucket's entry collects no event at all: the
    engine only ever tests each rule's single `nextDueDate` and never
    expands later occurrences across the horizon. -/
theorem forecast_occurrence_collection_cx :
    cxRule ∈ cxParams.recurringDebts ∧ cxRule.isActive = true ∧
    isSameMonth (advanceNextDueDate cxRule.nextDueDate .monthly)
      (((forecastPeriods cxParams)[1]?).getD ⟨0, 1, 1⟩) = true ∧
    ((generateForecast cxParams).entries[1]?).map (fun e => e.events) =
      some [] := by
  exact ⟨by decide, by decide, by decide, by decide⟩

/-- **C2 (amended)**: for each period bucket, the engine collects one
    event per active rule whose (single) `nextDueDate` falls in the
    bucket — later occurrences of the rule are not expanded — one event
    per non-paid amortization entry of an active debt due in the bucket,
    and one event per goal contribution dated in the bucket; the entry's
    `projectedIncome` sums the positive events and `projectedExpenses`
    the absolute negative events. -/
theorem forecast_bucket_collection (p : ForecastParams) (i : ℕ) (d : Date)
    (en : IForecastEntry) (hp : (forecastPeriods p)[i]? = some d)
    (he : (generateForecast p).entries[i]? = some en) :
    (∀ rule ∈ p.recurringDebts, rule.isActive = true →
      sameForecastPeriod p.periodType rule.nextDueDate d = true →
      recurringEvent rule ∈ en.events) ∧
    (∀ debt ∈ p.longTermDebts, debt.isActive = true →
      ∀ entry ∈ debt.amortizationTable, entry.status ≠ EntryStatus.paid →
        sameForecastPeriod p.periodType entry.dueDate d = true →
        debtPaymentEvent debt entry ∈ en.events) ∧
    (∀ contrib ∈ p.goalContributions,
      sameForecastPeriod p.periodType contrib.date d = true →
      goalContributionEvent contrib ∈ en.events) ∧
    en.projectedIncome = sumPositiveEvents en.events ∧
    en.projectedExpenses = sumNegativeEvents en.events := by
  have hE : (generateForecast p).entries =
      forecastEntries p (forecastPeriods p) p.initialBalance := rfl
  rw [hE] at he
  obtain ⟨hev, hinc, hexp⟩ :=
    forecastEntries_events p (forecastPeriods p) p.initialBalance i d en hp he
  refine ⟨?_, ?_, ?_, hinc, hexp⟩
  · intro rule hmem hact hsame
    rw [hev, periodEvents]
    refine List.mem_append_left _ (List.mem_append_left _ ?_)
    exact List.mem_map_of_mem _
      (List.mem_filter.mpr ⟨hmem, by rw [hact, hsame]; rfl⟩)
  · intro debt hmem hact entry hemem hstatus hsame
    rw [hev, periodEvents]
    refine List.mem_append_left _ (List.mem_append_right _ ?_)
    refine List.mem_flatten.mpr
      ⟨(debt.amortizationTable.filter (fun entry =>
          entry.status != EntryStatus.paid &&
          sameForecastPeriod p.periodType entry.dueDate d)).map
        (debtPaymentEvent debt), ?_, ?_⟩
    · exact List.mem_map_of_mem _
        (List.mem_filter.mpr ⟨hmem, by rw [hact]⟩)
    · refine List.mem_map_of_mem _ (List.mem_filter.mpr ⟨hemem, ?_⟩)
      rw [Bool.and_eq_true]
      exact ⟨bne_iff_ne.mpr hstatus, hsame⟩
  · intro contrib hmem hsame
    rw [hev, periodEvents]
    refine List.mem_append_right _ ?_
    exact List.mem_map_of_mem _ (List.mem_filter.mpr ⟨hmem, hsame⟩)

/-- Witness for the amended C2: the concrete rule's event is collected in
    the first bucket of the concrete forecast. -/
theorem forecast_bucket_collection_witness :
    recurringEvent cxRule ∈ wfEntry0.events :=
  (forecast_bucket_collection cxParams 0 ⟨2026, 1, 1⟩ wfEntry0
    (by decide) (by decide)).1 cxRule (by decide) (by decide) (by decide)

end FinTrack
